import Mathlib

set_option maxRecDepth 10000

/-!
Verification of the Protenix dependency-URL registry
(`protenix/web_service/dependency_url.py`).

The source is a single module-level Python dict literal `URL` mapping three
resource identifiers to fixed download URLs.  We embed the dict as an
association list in source order, and the dict lookup (`URL[key]` /
`URL.get(key)`) as an Option-returning search.  A small explicit-state
wrapper models the runtime view of the registry, so that purity,
immutability and interleaving claims can be stated about call sequences.
-/

/-- The registry, embedded from the source dict literal in
`dependency_url.py` lines 15-19, in source order. -/
def URL : List (String × String) :=
  [("model_v0.5.0",
    "https://af3-dev.tos-cn-beijing.volces.com/release_model/model_v0.5.0.pt"),
   ("ccd_components_file",
    "https://af3-dev.tos-cn-beijing.volces.com/release_data/components.v20240608.cif"),
   ("ccd_components_rdkit_mol_file",
    "https://af3-dev.tos-cn-beijing.volces.com/release_data/components.v20240608.cif.rdkit_mol.pkl")]

/-- Dict lookup on the registry: returns the location for a known
identifier, `none` (the `NotFound` outcome) for an absent one.  This is the
semantics of a Python dict read `URL.get(identifier)` (keys are unique, so
association-list search agrees with the dict). -/
def lookup (identifier : String) : Option String :=
  (URL.find? (fun p => p.1 == identifier)).map Prod.snd

/-- The identifiers recognized by the registry (the dict keys, in order). -/
def identifiers : List String := URL.map Prod.fst

/-- Whether string `s` starts with the string `pre`, computed on the
character lists. -/
def startsWithStr (s pre : String) : Bool :=
  s.toList.take pre.toList.length == pre.toList

/-- Well-formed absolute URL check used by the invariant claims: the string
is non-empty, starts with the scheme `"https://"`, and after the scheme has
a non-empty host followed by a non-empty path. -/
def isWellFormedAbsoluteUrl (s : String) : Bool :=
  !s.toList.isEmpty &&
  startsWithStr s "https://" &&
  (let rest := s.toList.drop 8
   let host := rest.takeWhile (fun c => c != '/')
   let path := rest.drop host.length
   !host.isEmpty && !path.isEmpty)

/-- Runtime state of the registry component: just its entries.  Python has
a single module-level dict; we thread it explicitly so that statements
about call sequences are expressible. -/
structure RegistryState where
  entries : List (String × String)
deriving Repr, DecidableEq

/-- The state at module initialization: the literal constant. -/
def initState : RegistryState := ⟨URL⟩

/-- One call of the lookup operation against a registry state: returns the
result together with the state after the call.  A Python dict read does not
mutate the dict, so the state is returned unchanged. -/
def lookupCall (st : RegistryState) (identifier : String) :
    Option String × RegistryState :=
  ((st.entries.find? (fun p => p.1 == identifier)).map Prod.snd, st)

/-- Run a sequence of lookup calls, threading the state. -/
def runCalls (st : RegistryState) (ids : List String) : RegistryState :=
  ids.foldl (fun s i => (lookupCall s i).2) st

/-- Run a sequence of lookup calls, threading the state and collecting the
result each caller observes, in order. -/
def runObserved (st : RegistryState) (ids : List String) : List (Option String) :=
  match ids with
  | [] => []
  | i :: rest =>
    let r := lookupCall st i
    r.1 :: runObserved r.2 rest

/-- C1: for each of the three defined identifiers, `lookup` returns exactly
the literal URL string of the source table, unmodified. -/
theorem lookup_defined_exact :
    lookup "model_v0.5.0" =
      some "https://af3-dev.tos-cn-beijing.volces.com/release_model/model_v0.5.0.pt" ∧
    lookup "ccd_components_file" =
      some "https://af3-dev.tos-cn-beijing.volces.com/release_data/components.v20240608.cif" ∧
    lookup "ccd_components_rdkit_mol_file" =
      some "https://af3-dev.tos-cn-beijing.volces.com/release_data/components.v20240608.cif.rdkit_mol.pkl" := by
  refine ⟨rfl, rfl, rfl⟩

/-- C2: `lookup` fails (returns `none`, the `NotFound` outcome) exactly on
the identifiers outside the three-element key set; since the result is an
`Option`, `none` is the only possible failure. -/
theorem lookup_eq_none_iff (identifier : String) :
    lookup identifier = none ↔
      identifier ∉ ["model_v0.5.0", "ccd_components_file",
                    "ccd_components_rdkit_mol_file"] := by
  constructor
  · intro h hmem
    simp only [List.mem_cons, List.not_mem_nil, or_false] at hmem
    rcases hmem with h1 | h1 | h1 <;> subst h1 <;>
      exact absurd h (by decide)
  · intro h
    simp only [List.mem_cons, List.not_mem_nil, or_false, not_or] at h
    obtain ⟨h1, h2, h3⟩ := h
    have hfind : URL.find? (fun p => p.1 == identifier) = none := by
      rw [List.find?_eq_none]
      intro x hx
      simp only [URL, List.mem_cons, List.not_mem_nil, or_false] at hx
      rcases hx with rfl | rfl | rfl
      · simp only [beq_iff_eq]; exact Ne.symm h1
      · simp only [beq_iff_eq]; exact Ne.symm h2
      · simp only [beq_iff_eq]; exact Ne.symm h3
    simp [lookup, hfind]

/-- C3: the domain of the registry is exactly the three-element identifier
set: `lookup` succeeds precisely on those identifiers. -/
theorem lookup_domain_exact (identifier : String) :
    (lookup identifier).isSome ↔
      identifier ∈ ["model_v0.5.0", "ccd_components_file",
                    "ccd_components_rdkit_mol_file"] := by
  rw [Option.isSome_iff_ne_none, ne_eq, lookup_eq_none_iff identifier, not_not]

/-- C4: the identifier keys of the registry are pairwise distinct: each
identifier is associated with exactly one location. -/
theorem identifiers_nodup : identifiers.Nodup := by
  decide

/-- C5: every location value in the registry is a well-formed absolute URL:
non-empty, scheme `https://`, non-empty host and path after the scheme. -/
theorem locations_well_formed :
    URL.all (fun p => isWellFormedAbsoluteUrl p.2) = true := by
  decide

/-- C6: `lookup` is idempotent and deterministic: two successive calls
against the same registry state (the second running in the state left by
the first) observe the same result. -/
theorem lookup_idempotent (st : RegistryState) (identifier : String) :
    (lookupCall ((lookupCall st identifier).2) identifier).1 =
      (lookupCall st identifier).1 := by
  rfl

/-- C6 witness: two successive lookups of `"model_v0.5.0"` on the initial
registry agree.  (C6 has no Prop hypothesis; recorded as a concrete
instantiation.) -/
theorem lookup_idempotent_witness :
    (lookupCall ((lookupCall initState "model_v0.5.0").2) "model_v0.5.0").1 =
      (lookupCall initState "model_v0.5.0").1 :=
  lookup_idempotent initState "model_v0.5.0"

/-- C7: `lookup` has no side effects and the registry is immutable: after
any sequence of lookup calls starting from the initial state, the entries
are still the literal constant. -/
theorem registry_immutable (ids : List String) :
    (runCalls initState ids).entries = URL := by
  induction ids with
  | nil => rfl
  | cons i rest ih =>
    have hstep : ∀ st : RegistryState, (lookupCall st i).2 = st := fun _ => rfl
    simpa [runCalls, hstep] using ih

/-- C8: any interleaving of lookup calls (modelled as an arbitrary sequence
of atomic calls against the shared registry) observes exactly the
sequential results: each caller sees `lookup` of its identifier on the
never-mutated registry. -/
theorem interleaving_observes_sequential (ids : List String) :
    runObserved initState ids = ids.map lookup := by
  induction ids with
  | nil => rfl
  | cons i rest ih =>
    have hres : (lookupCall initState i).1 = lookup i := rfl
    have hst : (lookupCall initState i).2 = initState := rfl
    simp [runObserved, hres, hst, ih]

/-- C9: the three location values are pairwise distinct: no two different
identifiers map to the same URL string. -/
theorem locations_pairwise_distinct : (URL.map Prod.snd).Nodup := by
  decide

/-- C10: the location of `"ccd_components_rdkit_mol_file"` is the location
of `"ccd_components_file"` with `".rdkit_mol.pkl"` appended, and all three
locations start with the common host string
`"https://af3-dev.tos-cn-beijing.volces.com/"`. -/
theorem locations_related :
    (∀ u v, lookup "ccd_components_file" = some u →
      lookup "ccd_components_rdkit_mol_file" = some v →
      v = u ++ ".rdkit_mol.pkl") ∧
    URL.all (fun p =>
      startsWithStr p.2 "https://af3-dev.tos-cn-beijing.volces.com/") = true := by
  constructor
  · intro u v hu hv
    have hu' : (some
        "https://af3-dev.tos-cn-beijing.volces.com/release_data/components.v20240608.cif"
        : Option String) = some u := Eq.trans (by rfl) hu
    have hv' : (some
        "https://af3-dev.tos-cn-beijing.volces.com/release_data/components.v20240608.cif.rdkit_mol.pkl"
        : Option String) = some v := Eq.trans (by rfl) hv
    have h1 := Option.some.inj hu'
    have h2 := Option.some.inj hv'
    subst h1; subst h2
    rfl
  · decide

/-- C10 witness: concrete instantiation of the suffix relation at the two
actual registry entries. -/
theorem locations_related_witness :
    lookup "ccd_components_file" =
      some "https://af3-dev.tos-cn-beijing.volces.com/release_data/components.v20240608.cif" ∧
    lookup "ccd_components_rdkit_mol_file" =
      some "https://af3-dev.tos-cn-beijing.volces.com/release_data/components.v20240608.cif.rdkit_mol.pkl" ∧
    "https://af3-dev.tos-cn-beijing.volces.com/release_data/components.v20240608.cif.rdkit_mol.pkl" =
      "https://af3-dev.tos-cn-beijing.volces.com/release_data/components.v20240608.cif" ++ ".rdkit_mol.pkl" :=
  ⟨rfl, rfl,
   locations_related.1
     "https://af3-dev.tos-cn-beijing.volces.com/release_data/components.v20240608.cif"
     "https://af3-dev.tos-cn-beijing.volces.com/release_data/components.v20240608.cif.rdkit_mol.pkl"
     rfl rfl⟩
